import Mathlib

/-!
Shallow embedding of the Maxelo job-application intake site (src/app.py).

The web layer (Flask), the PostgreSQL engine, and the werkzeug hashing and
filename helpers are external collaborators: connections are modelled by an
environment recording whether each connection attempt succeeds, the two
database tables by lists of records, session state by a small structure, and
each route handler by a pure function from its inputs to a result record
holding the rendered or redirected response, the flashed messages, the new
store, and the number of database connections the handler left open.
-/

set_option maxRecDepth 8192

namespace MaxeloApp

/-- Allowed resume file extensions, from ALLOWED_EXTENSIONS in app.py line 15. -/
def ALLOWED_EXTENSIONS : List String := ["pdf", "doc", "docx"]

/-- Characters after the last dot of a character list, or none when no dot
occurs; this is the tail rsplit with one split selects. -/
def afterLastDot : List Char → Option (List Char)
  | [] => none
  | c :: rest =>
    match afterLastDot rest with
    | some t => some t
    | none => if c = ('.') then some rest else none

/-- Embedding of allowed_file (app.py lines 17 to 18): the filename must
contain a dot and the lowercased text after the last dot must be an allowed
extension, mirroring rsplit with one split. Strings are handled through
their character lists so that the definition evaluates by computation. -/
def allowed_file (filename : String) : Bool :=
  filename.toList.contains ('.') &&
    ALLOWED_EXTENSIONS.any (fun e =>
      e.toList == ((afterLastDot filename.toList).getD []).map Char.toLower)

/-- A live database connection, identified by the URL it was opened with. -/
structure Conn where
  url : String
deriving DecidableEq

/-- Environment seen by get_db_connection: the configured DATABASE_URL, if
any, and for each i whether the i-th connection attempt in this call would
succeed (false models psycopg2 raising on that attempt). -/
structure DbEnv where
  database_url : Option String
  attempts : Nat → Bool

/-- Observable outcome of one call to get_db_connection: the value handed
back to the caller, how many connection attempts were made, and the list of
backoff sleeps performed (in time units). -/
structure ConnResult where
  conn : Option Conn
  attemptsMade : Nat
  sleeps : List Nat
deriving DecidableEq

/-- Embedding of get_db_connection (app.py lines 20 to 40): if DATABASE_URL
is unset, return None without attempting; otherwise make one connection
attempt and return the connection on success or None on failure (the
exception is caught inside the function). There is no retry loop and no
sleep. -/
def get_db_connection (env : DbEnv) : ConnResult :=
  match env.database_url with
  | none => ⟨none, 0, []⟩
  | some url => if env.attempts 0 then ⟨some ⟨url⟩, 1, []⟩ else ⟨none, 1, []⟩

/-- A row of the applications table (app.py lines 54 to 68); cv_filename,
cv_data and status are nullable columns, status defaults to Pending. Bytes
of the resume are modelled as a list of naturals. -/
structure ApplicationRow where
  id : Nat
  full_name : String
  email : String
  phone : String
  institution : String
  course : String
  cv_filename : Option String
  cv_data : Option (List Nat)
  application_date : Nat
  status : Option String
deriving DecidableEq

/-- A row of the admin table (app.py lines 71 to 78); the password column
holds whatever string the handlers store there. -/
structure AdminRow where
  id : Nat
  email : String
  password : String
deriving DecidableEq

/-- The durable store: both tables plus the next SERIAL ids. -/
structure Store where
  apps : List ApplicationRow
  admins : List AdminRow
  nextAppId : Nat
  nextAdminId : Nat
deriving DecidableEq

/-- Flask session state used by the admin routes. -/
structure Session where
  admin_logged_in : Bool
  admin_email : Option String
  admin_id : Option Nat
deriving DecidableEq

/-- A session with no authenticated admin. -/
def Session.anonymous : Session := ⟨false, none, none⟩

/-- Projection of an application row as selected by the dashboard query
(app.py lines 274 to 279), which omits cv_data. -/
structure AppView where
  id : Nat
  full_name : String
  email : String
  phone : String
  institution : String
  course : String
  cv_filename : Option String
  application_date : Nat
  status : Option String
deriving DecidableEq

/-- View of a row without its resume bytes. -/
def ApplicationRow.toView (r : ApplicationRow) : AppView :=
  ⟨r.id, r.full_name, r.email, r.phone, r.institution, r.course,
    r.cv_filename, r.application_date, r.status⟩

/-- The response a handler returns to the transport layer. -/
inductive Response
  | render (template : String) (applications : List AppView)
  | redirect (endpoint : String)
  | sendFile (download_name : Option String) (data : List Nat)
deriving DecidableEq

/-- Result of a sessionless handler: response, flashed messages as pairs of
message and category, the store after the call, and the number of database
connections the handler acquired but never closed. -/
structure WebResult where
  response : Response
  flashes : List (String × String)
  store : Store
  openConns : Nat
deriving DecidableEq

/-- Result of a session-aware admin handler. -/
structure HandlerResult where
  response : Response
  flashes : List (String × String)
  store : Store
  sess : Session
  openConns : Nat
deriving DecidableEq

/-- Python truthiness of a form value: request.form.get yields None for a
missing field, and None and the empty string are falsy. -/
def truthy (o : Option String) : Bool :=
  match o with
  | none => false
  | some s => !s.toList.isEmpty

/-- External collaborator (werkzeug secure_filename), modelled minimally as
replacing path separators; no claim depends on its exact behaviour. -/
def secure_filename (s : String) : String :=
  s.map (fun c => if c = ('/') || c = ('\\') then ('_') else c)

/-- Verbatim text of the INSERT statement of the intake handler (app.py
lines 157 to 161), whitespace joined. Note the comma immediately before the
closing parenthesis of the VALUES list. -/
def insertApplicationsSQL : String :=
  "INSERT INTO applications (full_name, email, phone, institution, course, cv_filename, cv_data) VALUES (%s, %s, %s, %s, %s, %s, %s,)"

/-- Does a comma immediately followed by a closing parenthesis occur in the
character list? -/
def hasCommaParen : List Char → Bool
  | c :: d :: rest => ((c == (',')) && (d == (')'))) || hasCommaParen (d :: rest)
  | _ => false

/-- Model of the one PostgreSQL syntax rule this development needs: a VALUES
list with a comma immediately before its closing parenthesis (spaces
disregarded) is rejected by the parser of the database engine. -/
def hasTrailingCommaInValues (stmt : String) : Bool :=
  hasCommaParen (stmt.toList.filter (fun c => !(c == (' '))))

/-- Effect of a successful INSERT INTO applications: a new row is appended
with a server-assigned id and timestamp, nullable cv columns filled, and
status left to its Pending default. -/
def insertApplication (now : Nat) (st : Store)
    (full_name email phone institution course cv_filename : String)
    (cv_data : List Nat) : Store :=
  { st with
    apps := st.apps ++
      [⟨st.nextAppId, full_name, email, phone, institution, course,
        some cv_filename, some cv_data, now, some ("Pending")⟩],
    nextAppId := st.nextAppId + 1 }

/-- Execution of the intake INSERT statement against the store: the engine
first parses the statement and raises (here: returns an error) if the VALUES
list is malformed; only a well-formed statement performs the insert. -/
def execInsertApplication (stmt : String) (now : Nat) (st : Store)
    (full_name email phone institution course cv_filename : String)
    (cv_data : List Nat) : Except String Store :=
  if hasTrailingCommaInValues stmt then
    Except.error ("syntax error at or near the closing parenthesis")
  else
    Except.ok (insertApplication now st full_name email phone institution course cv_filename cv_data)

/-- An uploaded file part: its client-supplied filename and its bytes. -/
structure FileUpload where
  filename : String
  content : List Nat
deriving DecidableEq

/-- Embedding of the POST branch of the application route (app.py lines 115
to 178): validate the five text fields, the presence of the resume, its
extension and its size, in that order, re-rendering the form with an inline
error on the first failure; then acquire a connection and run the INSERT,
whose malformed VALUES list makes the engine raise, caught by the blanket
except which flashes a generic error (leaving the connection open). -/
def application (env : DbEnv) (now : Nat) (st : Store)
    (full_name email phone institution course : Option String)
    (cv_file : Option FileUpload) : WebResult :=
  if !(truthy full_name && truthy email && truthy phone && truthy institution && truthy course) then
    ⟨Response.render ("application.html") [], [(("Please fill in all required fields"), ("error"))], st, 0⟩
  else
    match cv_file with
    | none =>
      ⟨Response.render ("application.html") [], [(("Please upload your CV"), ("error"))], st, 0⟩
    | some cv =>
      if cv.filename = ("") then
        ⟨Response.render ("application.html") [], [(("Please upload your CV"), ("error"))], st, 0⟩
      else if !allowed_file cv.filename then
        ⟨Response.render ("application.html") [], [(("Invalid file type. Please upload PDF or Word document."), ("error"))], st, 0⟩
      else
        if cv.content.length > 5 * 1024 * 1024 then
          ⟨Response.render ("application.html") [], [(("File size too large. Please upload a file smaller than 5MB."), ("error"))], st, 0⟩
        else
          match (get_db_connection env).conn with
          | some _ =>
            match execInsertApplication insertApplicationsSQL now st
                (full_name.getD ("")) (email.getD ("")) (phone.getD (""))
                (institution.getD ("")) (course.getD (""))
                (secure_filename cv.filename) cv.content with
            | Except.ok st2 =>
              ⟨Response.redirect ("index"), [(("Application submitted successfully! We will contact you soon."), ("success"))], st2, 0⟩
            | Except.error _ =>
              ⟨Response.render ("application.html") [], [(("Error submitting application. Please try again."), ("error"))], st, 1⟩
          | none =>
            ⟨Response.render ("application.html") [], [(("Database connection error. Please try again."), ("error"))], st, 0⟩

/-- Embedding of the POST branch of admin_login (app.py lines 180 to 214),
parametrised by the opaque hash verifier (werkzeug check_password_hash). The
admin row is looked up by email; the connection is closed before branching;
a missing row and a failed verification land in the same else branch. -/
def admin_login (gverify : String → String → Bool) (env : DbEnv) (st : Store)
    (sess : Session) (email password : Option String) : HandlerResult :=
  if !(truthy email && truthy password) then
    ⟨Response.render ("admin_login.html") [], [(("Please enter both email and password"), ("error"))], st, sess, 0⟩
  else
    match (get_db_connection env).conn with
    | some _ =>
      match st.admins.find? (fun r => r.email == email.getD ("")) with
      | some a =>
        if gverify a.password (password.getD ("")) then
          ⟨Response.redirect ("admin_dashboard"), [(("Login successful!"), ("success"))], st,
            ⟨true, email, some a.id⟩, 0⟩
        else
          ⟨Response.render ("admin_login.html") [], [(("Invalid email or password"), ("error"))], st, sess, 0⟩
      | none =>
        ⟨Response.render ("admin_login.html") [], [(("Invalid email or password"), ("error"))], st, sess, 0⟩
    | none =>
      ⟨Response.render ("admin_login.html") [], [(("Database connection error"), ("error"))], st, sess, 0⟩

/-- Embedding of the POST branch of admin_forgot_password (app.py lines 216
to 263), parametrised by the opaque hash function. After the three field
validations it acquires a connection; when the admin row exists the password
hash is overwritten and the connection closed; when it does not exist the
handler flashes an error and returns with the connection still open (the
code closes cur and conn only inside the found branch). -/
def admin_forgot_password (ghash : String → String) (env : DbEnv) (st : Store)
    (email new_password confirm_password : Option String) : WebResult :=
  if !(truthy email && truthy new_password && truthy confirm_password) then
    ⟨Response.render ("admin_forgot_password.html") [], [(("Please fill in all fields"), ("error"))], st, 0⟩
  else if !(new_password.getD ("") == confirm_password.getD ("")) then
    ⟨Response.render ("admin_forgot_password.html") [], [(("Passwords do not match"), ("error"))], st, 0⟩
  else if (new_password.getD ("")).length < 6 then
    ⟨Response.render ("admin_forgot_password.html") [], [(("Password must be at least 6 characters long"), ("error"))], st, 0⟩
  else
    match (get_db_connection env).conn with
    | some _ =>
      match st.admins.find? (fun r => r.email == email.getD ("")) with
      | some _ =>
        ⟨Response.redirect ("admin_login"),
          [(("Password reset successfully! You can now login with your new password."), ("success"))],
          { st with admins := st.admins.map (fun r =>
              if r.email == email.getD ("") then { r with password := ghash (new_password.getD ("")) } else r) },
          0⟩
      | none =>
        ⟨Response.render ("admin_forgot_password.html") [], [(("Admin email not found"), ("error"))], st, 1⟩
    | none =>
      ⟨Response.render ("admin_forgot_password.html") [], [(("Database connection error"), ("error"))], st, 0⟩

/-- Insertion step for ordering rows by application_date descending. -/
def insertByDate (r : ApplicationRow) : List ApplicationRow → List ApplicationRow
  | [] => [r]
  | x :: xs =>
    if x.application_date ≥ r.application_date then x :: insertByDate r xs
    else r :: x :: xs

/-- The dashboard listing query: all application rows ordered by
application_date descending. -/
def list_all (st : Store) : List ApplicationRow :=
  st.apps.foldr insertByDate []

/-- Embedding of admin_dashboard (app.py lines 265 to 294): gate on the
session flag, then acquire a connection; on success run the listing query
(queryRaises models that query raising); both failure branches flash an
error and render the dashboard with an empty application list. The raising
branch leaves the connection open. -/
def admin_dashboard (env : DbEnv) (queryRaises : Bool) (sess : Session)
    (st : Store) : HandlerResult :=
  if !sess.admin_logged_in then
    ⟨Response.redirect ("admin_login"), [], st, sess, 0⟩
  else
    match (get_db_connection env).conn with
    | some _ =>
      if queryRaises then
        ⟨Response.render ("admin_dashboard.html") [], [(("Error loading applications"), ("error"))], st, sess, 1⟩
      else
        ⟨Response.render ("admin_dashboard.html") ((list_all st).map ApplicationRow.toView), [], st, sess, 0⟩
    | none =>
      ⟨Response.render ("admin_dashboard.html") [], [(("Database connection error"), ("error"))], st, sess, 0⟩

/-- Python str applied to an optional form value, as an f-string renders it. -/
def pyStr (o : Option String) : String := o.getD ("None")

/-- Embedding of update_application_status (app.py lines 296 to 323): gate
on the session flag, acquire a connection, run the UPDATE which overwrites
status on every row whose id matches (the row count is never inspected),
then flash the success message and redirect to the dashboard. -/
def update_application_status (env : DbEnv) (sess : Session) (st : Store)
    (app_id : Nat) (status_field : Option String) : HandlerResult :=
  if !sess.admin_logged_in then
    ⟨Response.redirect ("admin_login"), [], st, sess, 0⟩
  else
    match (get_db_connection env).conn with
    | some _ =>
      ⟨Response.redirect ("admin_dashboard"),
        [((("Application status updated to ") ++ pyStr status_field), ("success"))],
        { st with apps := st.apps.map (fun r =>
            if r.id == app_id then { r with status := status_field } else r) },
        sess, 0⟩
    | none =>
      ⟨Response.redirect ("admin_dashboard"), [(("Database connection error"), ("error"))], st, sess, 0⟩

/-- Embedding of download_cv (app.py lines 325 to 356): gate on the session
flag, look the row up by id, and stream the resume bytes when the row exists
and its cv_data is non-null and non-empty (Python truthiness of bytes);
otherwise flash an error and redirect to the dashboard. -/
def download_cv (env : DbEnv) (sess : Session) (st : Store) (app_id : Nat) :
    HandlerResult :=
  if !sess.admin_logged_in then
    ⟨Response.redirect ("admin_login"), [], st, sess, 0⟩
  else
    match (get_db_connection env).conn with
    | some _ =>
      match st.apps.find? (fun r => r.id == app_id) with
      | some r =>
        match r.cv_data with
        | some d =>
          if d.isEmpty then
            ⟨Response.redirect ("admin_dashboard"), [(("CV not found"), ("error"))], st, sess, 0⟩
          else
            ⟨Response.sendFile r.cv_filename d, [], st, sess, 0⟩
        | none =>
          ⟨Response.redirect ("admin_dashboard"), [(("CV not found"), ("error"))], st, sess, 0⟩
      | none =>
        ⟨Response.redirect ("admin_dashboard"), [(("CV not found"), ("error"))], st, sess, 0⟩
    | none =>
      ⟨Response.redirect ("admin_dashboard"), [(("Database connection error"), ("error"))], st, sess, 0⟩

/-- Embedding of admin_logout (app.py lines 358 to 362): no session gate;
the session is cleared, the logged-out message flashed, and the caller
redirected to the login page, whatever the prior session state was. -/
def admin_logout (st : Store) (_sess : Session) : HandlerResult :=
  ⟨Response.redirect ("admin_login"),
    [(("You have been logged out successfully"), ("success"))],
    st, Session.anonymous, 0⟩

/-- Bootstrap email from init_database (app.py line 81). -/
def DEFAULT_ADMIN_EMAIL : String := "admin@maxelo.co.za"

/-- Bootstrap password from init_database (app.py line 82). -/
def DEFAULT_ADMIN_PASSWORD : String := "Admin@maxelo2025!"

/-- Embedding of the bootstrap step of init_database (app.py lines 80 to
92), parametrised by the opaque hash function (werkzeug
generate_password_hash): look the bootstrap email up; only when no row
exists, insert one whose password column holds the hash of the bootstrap
password. -/
def ensure_default_admin (ghash : String → String) (nextId : Nat)
    (admins : List AdminRow) : List AdminRow :=
  match admins.find? (fun r => r.email == DEFAULT_ADMIN_EMAIL) with
  | some _ => admins
  | none => admins ++ [⟨nextId, DEFAULT_ADMIN_EMAIL, ghash DEFAULT_ADMIN_PASSWORD⟩]

/-- Number of admin rows carrying the bootstrap email. -/
def countBootstrap (admins : List AdminRow) : Nat :=
  (admins.filter (fun r => r.email == DEFAULT_ADMIN_EMAIL)).length

/-- Fixture: an environment whose configured database accepts every
connection attempt. -/
def env0 : DbEnv := ⟨some ("postgresql://user@host/db"), fun _ => true⟩

/-- Fixture: an environment with no DATABASE_URL configured. -/
def envNoDb : DbEnv := ⟨none, fun _ => true⟩

/-- Fixture: an environment whose first connection attempt fails and whose
later attempts would all succeed. -/
def envRetry : DbEnv := ⟨some ("postgresql://user@host/db"), fun n => Nat.blt 0 n⟩

/-- Fixture: the empty store. -/
def store0 : Store := ⟨[], [], 1, 1⟩

/-- Fixture: one pending application and no admin rows. -/
def row1 : ApplicationRow :=
  ⟨1, "Jane Doe", "jane@x.com", "0711234567", "Test Univ", "CompSci",
    some ("resume.pdf"), some [37, 80, 68, 70], 10, some ("Pending")⟩

/-- Fixture: a store holding only row1. -/
def store1 : Store := ⟨[row1], [], 2, 1⟩

/-- Fixture: an authenticated admin session. -/
def authSess : Session := ⟨true, some ("admin@maxelo.co.za"), some 1⟩

/-- Fixture: a small valid resume upload. -/
def janeUpload : FileUpload := ⟨"resume.pdf", [37, 80, 68, 70]⟩

/-! ## Claim C1 -/

/-- C1: the claim fails on the code as a slip against its own intent. At a
fully valid submission (all five fields non-empty, a pdf resume of 4 bytes,
a connection available) the intake handler does not insert a row and does
not redirect: the INSERT statement of app.py lines 157 to 161 carries a
trailing comma in its VALUES list, the engine rejects it, and the blanket
except re-renders the form with the generic submission error, leaving the
store unchanged. -/
theorem C1_valid_submission_fails :
    application env0 17 store0 (some ("Jane Doe")) (some ("jane@x.com"))
        (some ("0711234567")) (some ("Test Univ")) (some ("CompSci")) (some janeUpload) =
      ⟨Response.render ("application.html") [],
        [(("Error submitting application. Please try again."), ("error"))], store0, 1⟩ ∧
    hasTrailingCommaInValues insertApplicationsSQL = true := by
  exact ⟨rfl, rfl⟩

/-! ## Claim C2 -/

/-- Statement of the retry behaviour the claim ascribes to the acquisition
operation, in the words of the spec: whenever a URL is configured and some
attempt among the first three would succeed, the caller receives a
connection. -/
def retriesUpToThreeAttempts : Prop :=
  ∀ env : DbEnv, env.database_url.isSome = true →
    (∃ i, i < 3 ∧ env.attempts i = true) →
    (get_db_connection env).conn.isSome = true

/-- C2: counterexample — in an environment whose first connection attempt
fails and whose second attempt would succeed, get_db_connection returns no
connection and performs no backoff sleep: there is no retry loop in the
code. -/
theorem C2_no_retry_counterexample :
    ¬ retriesUpToThreeAttempts ∧ (get_db_connection envRetry).sleeps = [] := by
  constructor
  · intro h
    have h1 : (get_db_connection envRetry).conn.isSome = true :=
      h envRetry rfl ⟨1, by decide, rfl⟩
    have h2 : (get_db_connection envRetry).conn.isSome = false := rfl
    exact Bool.noConfusion (h2.symm.trans h1)
  · rfl

/-- C2 amended: the acquisition operation makes at most one connection
attempt per call, performs no backoff sleep, and never raises past its
boundary — it is a total function whose callers receive a connection exactly
when a URL is configured and the single attempt succeeds, and the value none
otherwise. -/
theorem C2_single_attempt_no_retry (env : DbEnv) :
    (get_db_connection env).attemptsMade ≤ 1 ∧
    (get_db_connection env).sleeps = [] ∧
    (get_db_connection env).conn.isSome = (env.database_url.isSome && env.attempts 0) := by
  unfold get_db_connection
  cases h : env.database_url with
  | none => simp
  | some url => cases ha : env.attempts 0 <;> simp [ha]

/-! ## Claim C3 -/

/-- C3: counterexample — updating the non-existent id 5 in a store whose
only application has id 1 redirects to the dashboard flashing the success
message, exactly as on an existing id: the handler never inspects the row
count, so no NotFound outcome is ever reported (though indeed nothing is
mutated). -/
theorem C3_missing_id_reports_success :
    update_application_status env0 authSess store1 5 (some ("Reviewed")) =
      ⟨Response.redirect ("admin_dashboard"),
        [(("Application status updated to Reviewed"), ("success"))],
        store1, authSess, 0⟩ := by
  rfl

/-- Writing the status field on the rows matching an id leaves a list with
no matching row unchanged. -/
theorem map_status_id (app_id : Nat) (sv : Option String) (l : List ApplicationRow)
    (hall : l.all (fun r => !(r.id == app_id)) = true) :
    l.map (fun r => if r.id == app_id then { r with status := sv } else r) = l := by
  induction l with
  | nil => rfl
  | cons x xs ih =>
    simp only [List.all_cons, Bool.and_eq_true, Bool.not_eq_true'] at hall
    have hc : ¬ ((x.id == app_id) = true) := by
      rw [hall.1]
      exact Bool.false_ne_true
    rw [List.map_cons, if_neg hc, ih hall.2]

/-- C3 amended: with an authenticated session and an acquired connection,
update_application_status overwrites the status field of exactly the rows
whose id matches, leaving every other field and row untouched, and when no
row matches it mutates nothing — but in every case it flashes the success
message and redirects to the dashboard: no NotFound outcome is reported. -/
theorem C3_update_overwrites_only_status (env : DbEnv) (sess : Session)
    (st : Store) (app_id : Nat) (sv : Option String) (c : Conn)
    (hauth : sess.admin_logged_in = true)
    (hconn : (get_db_connection env).conn = some c) :
    (update_application_status env sess st app_id sv).store.apps =
      st.apps.map (fun r => if r.id == app_id then { r with status := sv } else r) ∧
    (update_application_status env sess st app_id sv).flashes =
      [((("Application status updated to ") ++ pyStr sv), ("success"))] ∧
    (update_application_status env sess st app_id sv).response =
      Response.redirect ("admin_dashboard") ∧
    (st.apps.all (fun r => !(r.id == app_id)) = true →
      (update_application_status env sess st app_id sv).store = st) := by
  have h : update_application_status env sess st app_id sv =
      ⟨Response.redirect ("admin_dashboard"),
        [((("Application status updated to ") ++ pyStr sv), ("success"))],
        { st with apps := st.apps.map (fun r =>
            if r.id == app_id then { r with status := sv } else r) },
        sess, 0⟩ := by
    unfold update_application_status
    rw [hauth, hconn]
    rfl
  refine ⟨by rw [h], by rw [h], by rw [h], fun hall => ?_⟩
  rw [h]
  show Store.mk (st.apps.map _) st.admins st.nextAppId st.nextAdminId = st
  rw [map_status_id app_id sv st.apps hall]

/-- C3 amended, witnessed at an existing id in the concrete one-row store. -/
theorem C3_update_overwrites_only_status_witness :
    (update_application_status env0 authSess store1 1 (some ("Accepted"))).store.apps =
      store1.apps.map (fun r => if r.id == 1 then { r with status := some ("Accepted") } else r) ∧
    (update_application_status env0 authSess store1 1 (some ("Accepted"))).flashes =
      [((("Application status updated to ") ++ pyStr (some ("Accepted"))), ("success"))] :=
  ⟨(C3_update_overwrites_only_status env0 authSess store1 1 (some ("Accepted"))
      (Conn.mk ("postgresql://user@host/db")) rfl rfl).1,
   (C3_update_overwrites_only_status env0 authSess store1 1 (some ("Accepted"))
      (Conn.mk ("postgresql://user@host/db")) rfl rfl).2.1⟩

/-! ## Claim C4 -/

/-- C4: counterexample — from an Anonymous session the dashboard gate yields
a bare redirect with no flash, but logout is not gated: called from an
Anonymous session it still performs its operation, emitting the logged-out
success flash while redirecting to the login page. -/
theorem C4_logout_not_gated :
    (admin_dashboard env0 false Session.anonymous store1).flashes = [] ∧
    (admin_dashboard env0 false Session.anonymous store1).response =
      Response.redirect ("admin_login") ∧
    (admin_logout store1 Session.anonymous).flashes =
      [(("You have been logged out successfully"), ("success"))] := by
  exact ⟨rfl, rfl, rfl⟩

/-- C4 amended: from an Anonymous session, dashboard, update_status and
download_resume are hard-gated — each returns a bare redirect to the login
entry point with no flash, no store mutation and no session change; logout
is not gated: it always performs its session clear and success flash, but it
also only redirects to the login page and never touches the store, so no
gated store effect is observable from an Anonymous session. -/
theorem C4_anonymous_gate (env : DbEnv) (qr : Bool) (sess : Session)
    (st : Store) (app_id : Nat) (sv : Option String)
    (hanon : sess.admin_logged_in = false) :
    admin_dashboard env qr sess st =
      ⟨Response.redirect ("admin_login"), [], st, sess, 0⟩ ∧
    update_application_status env sess st app_id sv =
      ⟨Response.redirect ("admin_login"), [], st, sess, 0⟩ ∧
    download_cv env sess st app_id =
      ⟨Response.redirect ("admin_login"), [], st, sess, 0⟩ ∧
    admin_logout st sess =
      ⟨Response.redirect ("admin_login"),
        [(("You have been logged out successfully"), ("success"))],
        st, Session.anonymous, 0⟩ := by
  unfold admin_dashboard update_application_status download_cv admin_logout
  rw [hanon]
  exact ⟨rfl, rfl, rfl, rfl⟩

/-- C4 amended, witnessed at the concrete anonymous session and one-row
store. -/
theorem C4_anonymous_gate_witness :
    admin_dashboard env0 false Session.anonymous store1 =
      ⟨Response.redirect ("admin_login"), [], store1, Session.anonymous, 0⟩ ∧
    update_application_status env0 Session.anonymous store1 1 (some ("Reviewed")) =
      ⟨Response.redirect ("admin_login"), [], store1, Session.anonymous, 0⟩ ∧
    download_cv env0 Session.anonymous store1 1 =
      ⟨Response.redirect ("admin_login"), [], store1, Session.anonymous, 0⟩ ∧
    admin_logout store1 Session.anonymous =
      ⟨Response.redirect ("admin_login"),
        [(("You have been logged out successfully"), ("success"))],
        store1, Session.anonymous, 0⟩ :=
  C4_anonymous_gate env0 false Session.anonymous store1 1 (some ("Reviewed")) rfl

/-! ## Claim C5 -/

/-- Fixture: a concrete stand-in for the opaque password hash function. -/
def ghash0 : String → String := fun s => ("hash:") ++ s

/-- C5: counterexample — the admin-not-found path of the password reset
acquires a connection, flashes its error, and exits with the connection
still open: not every exit path releases the acquired connection. -/
theorem C5_forgot_password_leak :
    (admin_forgot_password ghash0 env0 store1
        (some ("ghost@x.com")) (some ("secret1")) (some ("secret1"))).openConns = 1 := by
  rfl

/-- C5 amended: the success path of the password reset closes its
connection, and paths failing validation acquire none, but the
admin-not-found path exits with the acquired connection still open (as does
the failed-insert path of the intake handler, theorem
C1 above): release is not guaranteed on every exit path. -/
theorem C5_release_on_success_only (ghash : String → String) (env : DbEnv)
    (st : Store) (email np cp : Option String) (c : Conn)
    (hconn : (get_db_connection env).conn = some c)
    (ht : (truthy email && truthy np && truthy cp) = true)
    (heq : (np.getD ("") == cp.getD ("")) = true)
    (hlen : ¬ (np.getD ("")).length < 6) :
    ((∃ a, st.admins.find? (fun r => r.email == email.getD ("")) = some a) →
      (admin_forgot_password ghash env st email np cp).openConns = 0) ∧
    (st.admins.find? (fun r => r.email == email.getD ("")) = none →
      (admin_forgot_password ghash env st email np cp).openConns = 1) := by
  refine ⟨?_, ?_⟩
  · rintro ⟨a, ha⟩
    simp [admin_forgot_password, ht, heq, hlen, hconn, ha]
  · intro hnone
    simp [admin_forgot_password, ht, heq, hlen, hconn, hnone]

/-- Fixture: the single bootstrap admin row with a hashed password. -/
def admin1 : AdminRow := ⟨1, "admin@maxelo.co.za", "hash:Admin@maxelo2025!"⟩

/-- Fixture: one application row and the bootstrap admin row. -/
def store2 : Store := ⟨[row1], [admin1], 2, 2⟩

/-- C5 amended, witnessed on the success path: resetting the password of an
existing admin closes the connection. -/
theorem C5_release_on_success_only_witness :
    (admin_forgot_password ghash0 env0 store2
        (some ("admin@maxelo.co.za")) (some ("secret1")) (some ("secret1"))).openConns = 0 :=
  (C5_release_on_success_only ghash0 env0 store2
      (some ("admin@maxelo.co.za")) (some ("secret1")) (some ("secret1"))
      (Conn.mk ("postgresql://user@host/db")) rfl (by decide) (by decide) (by decide)).1
    ⟨admin1, by decide⟩

/-! ## Claim C6 -/

/-- C6: a login attempt against an existing email whose stored hash does not
verify the supplied password, and one against an email with no admin row,
return literally the same handler result — same response, same flash, same
store, same (unchanged) session, no connection left open — for every store,
environment and verifier: the caller learns nothing about which factor
failed. -/
theorem C6_login_failure_indistinguishable (gverify : String → String → Bool)
    (env : DbEnv) (st : Store) (sess : Session) (e1 e2 p : String) (a : AdminRow)
    (ht1 : truthy (some e1) = true) (ht2 : truthy (some e2) = true)
    (htp : truthy (some p) = true)
    (hfound : st.admins.find? (fun r => r.email == e1) = some a)
    (hwrong : gverify a.password p = false)
    (hmissing : st.admins.find? (fun r => r.email == e2) = none) :
    admin_login gverify env st sess (some e1) (some p) =
      admin_login gverify env st sess (some e2) (some p) := by
  cases hc : (get_db_connection env).conn with
  | none => simp [admin_login, ht1, ht2, htp, hc]
  | some c => simp [admin_login, ht1, ht2, htp, hc, hfound, hmissing, hwrong]

/-- Fixture: a concrete stand-in for the opaque password verifier, matching
ghash0. -/
def gverify0 : String → String → Bool := fun h q => h == (("hash:") ++ q)

/-- Fixture: a store holding only the bootstrap admin row. -/
def store3 : Store := ⟨[], [admin1], 1, 2⟩

/-- C6 witnessed: wrong password against the bootstrap admin and an unknown
email give identical results. -/
theorem C6_login_failure_indistinguishable_witness :
    admin_login gverify0 env0 store3 Session.anonymous
        (some ("admin@maxelo.co.za")) (some ("wrong")) =
      admin_login gverify0 env0 store3 Session.anonymous
        (some ("nobody@x.com")) (some ("wrong")) :=
  C6_login_failure_indistinguishable gverify0 env0 store3 Session.anonymous
    ("admin@maxelo.co.za") ("nobody@x.com") ("wrong") admin1
    (by decide) (by decide) (by decide) (by decide) (by decide) (by decide)

/-! ## Claim C7 -/

/-- C7: the intake validation checks run in the fixed order required fields,
resume attached with non-empty filename, allowed extension, size bound; the
first failing check produces its own inline error, re-renders the form, and
leaves the store unchanged — later checks and the store never run. -/
theorem C7_validation_order (env : DbEnv) (now : Nat) (st : Store)
    (fn em ph inst co : Option String) (cv : Option FileUpload) :
    ((truthy fn && truthy em && truthy ph && truthy inst && truthy co) = false →
      application env now st fn em ph inst co cv =
        ⟨Response.render ("application.html") [],
          [(("Please fill in all required fields"), ("error"))], st, 0⟩) ∧
    ((truthy fn && truthy em && truthy ph && truthy inst && truthy co) = true →
      cv = none →
      application env now st fn em ph inst co cv =
        ⟨Response.render ("application.html") [],
          [(("Please upload your CV"), ("error"))], st, 0⟩) ∧
    (∀ f, (truthy fn && truthy em && truthy ph && truthy inst && truthy co) = true →
      cv = some f → f.filename = ("") →
      application env now st fn em ph inst co cv =
        ⟨Response.render ("application.html") [],
          [(("Please upload your CV"), ("error"))], st, 0⟩) ∧
    (∀ f, (truthy fn && truthy em && truthy ph && truthy inst && truthy co) = true →
      cv = some f → f.filename ≠ ("") → allowed_file f.filename = false →
      application env now st fn em ph inst co cv =
        ⟨Response.render ("application.html") [],
          [(("Invalid file type. Please upload PDF or Word document."), ("error"))], st, 0⟩) ∧
    (∀ f, (truthy fn && truthy em && truthy ph && truthy inst && truthy co) = true →
      cv = some f → f.filename ≠ ("") → allowed_file f.filename = true →
      f.content.length > 5 * 1024 * 1024 →
      application env now st fn em ph inst co cv =
        ⟨Response.render ("application.html") [],
          [(("File size too large. Please upload a file smaller than 5MB."), ("error"))], st, 0⟩) := by
  refine ⟨?_, ?_, ?_, ?_, ?_⟩
  · intro h
    simp [application, h]
  · intro h hcv
    subst hcv
    simp [application, h]
  · intro f h hcv hemp
    subst hcv
    simp [application, h, hemp]
  · intro f h hcv hne hall
    subst hcv
    simp [application, h, hne, hall]
  · intro f h hcv hne hall hsz
    subst hcv
    simp [application, h, hne, hall, hsz]

/-- C7 witnessed at the first check: a submission with every field missing
is rejected with the required-fields error and no row inserted. -/
theorem C7_validation_order_witness :
    application env0 0 store0 none none none none none none =
      ⟨Response.render ("application.html") [],
        [(("Please fill in all required fields"), ("error"))], store0, 0⟩ :=
  (C7_validation_order env0 0 store0 none none none none none none).1 (by decide)

/-! ## Claim C8 -/

/-- A list on which the bootstrap lookup fails holds no bootstrap row. -/
theorem countBootstrap_eq_zero_of_find_none (l : List AdminRow)
    (h : l.find? (fun r => r.email == DEFAULT_ADMIN_EMAIL) = none) :
    countBootstrap l = 0 := by
  unfold countBootstrap
  rw [List.length_eq_zero, List.filter_eq_nil_iff]
  intro a ha
  simpa using List.find?_eq_none.mp h a ha

/-- A list on which the bootstrap lookup succeeds holds at least one
bootstrap row. -/
theorem countBootstrap_pos_of_find_some (l : List AdminRow) (a : AdminRow)
    (h : l.find? (fun r => r.email == DEFAULT_ADMIN_EMAIL) = some a) :
    1 ≤ countBootstrap l := by
  unfold countBootstrap
  have hp := List.find?_some h
  exact List.length_pos_of_mem
    (List.mem_filter.mpr ⟨List.mem_of_find?_eq_some h, hp⟩)

/-- C8: the bootstrap step is idempotent — a second (hence any further)
invocation is the identity — and starting from a store with at most one
bootstrap row (the unique-email constraint of the admin table), two
invocations leave exactly one row with the bootstrap email; moreover every
row the bootstrap inserts carries the hash of the default password in its
password column, never the clear text itself. -/
theorem C8_ensure_default_admin_idempotent (ghash : String → String)
    (n m : Nat) (admins : List AdminRow)
    (h : countBootstrap admins ≤ 1) :
    ensure_default_admin ghash m (ensure_default_admin ghash n admins) =
      ensure_default_admin ghash n admins ∧
    countBootstrap (ensure_default_admin ghash m (ensure_default_admin ghash n admins)) = 1 ∧
    ∀ r ∈ ensure_default_admin ghash n admins, ¬ r ∈ admins →
      r.password = ghash DEFAULT_ADMIN_PASSWORD := by
  cases hf : admins.find? (fun r => r.email == DEFAULT_ADMIN_EMAIL) with
  | some a =>
    have h1 : ensure_default_admin ghash n admins = admins := by
      unfold ensure_default_admin
      rw [hf]
    have h2 : ensure_default_admin ghash m admins = admins := by
      unfold ensure_default_admin
      rw [hf]
    have hge : 1 ≤ countBootstrap admins := countBootstrap_pos_of_find_some admins a hf
    refine ⟨by rw [h1, h2], by rw [h1, h2]; omega, ?_⟩
    intro r hr hnr
    rw [h1] at hr
    exact absurd hr hnr
  | none =>
    have hz : countBootstrap admins = 0 := countBootstrap_eq_zero_of_find_none admins hf
    have h1 : ensure_default_admin ghash n admins =
        admins ++ [AdminRow.mk n DEFAULT_ADMIN_EMAIL (ghash DEFAULT_ADMIN_PASSWORD)] := by
      unfold ensure_default_admin
      rw [hf]
    have hfind2 : (admins ++ [AdminRow.mk n DEFAULT_ADMIN_EMAIL (ghash DEFAULT_ADMIN_PASSWORD)]).find?
        (fun r => r.email == DEFAULT_ADMIN_EMAIL) =
        some (AdminRow.mk n DEFAULT_ADMIN_EMAIL (ghash DEFAULT_ADMIN_PASSWORD)) := by
      rw [List.find?_append, hf]
      rfl
    have h2 : ensure_default_admin ghash m
        (admins ++ [AdminRow.mk n DEFAULT_ADMIN_EMAIL (ghash DEFAULT_ADMIN_PASSWORD)]) =
        admins ++ [AdminRow.mk n DEFAULT_ADMIN_EMAIL (ghash DEFAULT_ADMIN_PASSWORD)] := by
      unfold ensure_default_admin
      rw [hfind2]
    refine ⟨by rw [h1, h2], ?_, ?_⟩
    · rw [h1, h2]
      unfold countBootstrap
      rw [List.filter_append, List.length_append]
      unfold countBootstrap at hz
      have hsingle : (([AdminRow.mk n DEFAULT_ADMIN_EMAIL (ghash DEFAULT_ADMIN_PASSWORD)] : List AdminRow).filter
          (fun r => r.email == DEFAULT_ADMIN_EMAIL)).length = 1 := rfl
      omega
    · intro r hr hnr
      rw [h1] at hr
      rcases List.mem_append.mp hr with hmem | hmem
      · exact absurd hmem hnr
      · rw [List.mem_singleton.mp hmem]

/-- C8 witnessed: bootstrapping the empty admin table twice equals
bootstrapping it once and leaves exactly one bootstrap row. -/
theorem C8_ensure_default_admin_idempotent_witness :
    ensure_default_admin ghash0 2 (ensure_default_admin ghash0 1 []) =
      ensure_default_admin ghash0 1 [] ∧
    countBootstrap (ensure_default_admin ghash0 2 (ensure_default_admin ghash0 1 [])) = 1 :=
  ⟨(C8_ensure_default_admin_idempotent ghash0 1 2 [] (by decide)).1,
   (C8_ensure_default_admin_idempotent ghash0 1 2 [] (by decide)).2.1⟩

/-! ## Claim C9 -/

/-- C9: a submission whose resume filename holds no dot at all is rejected
with the invalid-file-type error and no row is inserted, even with every
other input valid: allowed_file requires a dot before it ever looks at an
extension. -/
theorem C9_dotless_filename_rejected (env : DbEnv) (now : Nat) (st : Store)
    (fn em ph inst co : Option String) (name : String) (data : List Nat)
    (hfields : (truthy fn && truthy em && truthy ph && truthy inst && truthy co) = true)
    (hne : name ≠ (""))
    (hnodot : name.toList.contains ('.') = false) :
    application env now st fn em ph inst co (some (FileUpload.mk name data)) =
      ⟨Response.render ("application.html") [],
        [(("Invalid file type. Please upload PDF or Word document."), ("error"))], st, 0⟩ := by
  have hall : allowed_file name = false := by
    unfold allowed_file
    rw [hnodot]
    rfl
  simp [application, hfields, hne, hall]

/-- C9 witnessed: the dotless filename resume with valid fields is rejected
as an invalid file type. -/
theorem C9_dotless_filename_rejected_witness :
    application env0 0 store0 (some ("Jane")) (some ("j@x.com")) (some ("071"))
        (some ("Univ")) (some ("CS")) (some (FileUpload.mk ("resume") [1, 2, 3])) =
      ⟨Response.render ("application.html") [],
        [(("Invalid file type. Please upload PDF or Word document."), ("error"))], store0, 0⟩ :=
  C9_dotless_filename_rejected env0 0 store0 (some ("Jane")) (some ("j@x.com"))
    (some ("071")) (some ("Univ")) (some ("CS")) ("resume") [1, 2, 3]
    (by decide) (by decide) (by decide)

/-! ## Claim C10 -/

/-- C10: for an authenticated session, both store-outage modes of the
dashboard — no connection acquired, or the listing query raising — still
complete the request normally, rendering the dashboard template with an
empty application list plus a flashed error message, just as a store with
zero applications would render, with an error flash added. -/
theorem C10_dashboard_store_outage (env : DbEnv) (qr : Bool) (sess : Session)
    (st : Store) (hauth : sess.admin_logged_in = true) :
    ((get_db_connection env).conn = none →
      admin_dashboard env qr sess st =
        ⟨Response.render ("admin_dashboard.html") [],
          [(("Database connection error"), ("error"))], st, sess, 0⟩) ∧
    (∀ c, (get_db_connection env).conn = some c →
      admin_dashboard env true sess st =
        ⟨Response.render ("admin_dashboard.html") [],
          [(("Error loading applications"), ("error"))], st, sess, 1⟩) := by
  constructor
  · intro hc
    simp [admin_dashboard, hauth, hc]
  · intro c hc
    simp [admin_dashboard, hauth, hc]

/-- C10 witnessed: with no DATABASE_URL configured, the authenticated
dashboard still renders with an empty list and the connection error flash. -/
theorem C10_dashboard_store_outage_witness :
    admin_dashboard envNoDb false authSess store1 =
      ⟨Response.render ("admin_dashboard.html") [],
        [(("Database connection error"), ("error"))], store1, authSess, 0⟩ :=
  (C10_dashboard_store_outage envNoDb false authSess store1 rfl).1 rfl

end MaxeloApp
